import Mathlib

/-!
Verification of the behavioural contract of `src/app.py` (a Flask HTTP
gateway over a MongoDB collection) against its specification.

The embedding models:
 - JSON values (`Json`), as produced by Flask's `request.get_json()` and
   consumed by `jsonify`;
 - the MongoDB collection (`Store`), with `insert_one` and
   `find({}, {"_id": 0})` following the documented driver semantics:
   `insert_one` stores the payload keyed by its `"_id"` field when one is
   present (rejecting a duplicate key) and otherwise by a freshly
   generated ObjectId, and the `{"_id": 0}` projection omits the `"_id"`
   field from every returned document;
 - the two route handlers `index` and `data`, translated line by line
   from `app.py`, together with Flask's default mapping from uncaught
   exceptions to HTTP status codes;
 - the module's top-level execution, which resolves the decorator name
   `cross_origin` that `app.py` references but never imports or defines.
-/

deriving instance DecidableEq for Except

namespace FlaskApp

mutual
/-- a JSON value: null, boolean, number, string, array or object
    (numbers are modelled as integers; floating point is out of scope) -/
inductive Json where
  | null
  | bool (b : Bool)
  | num (n : Int)
  | str (s : String)
  | arr (elems : JsonList)
  | obj (fields : JsonObj)
deriving DecidableEq
/-- a list of JSON values (the elements of a JSON array) -/
inductive JsonList where
  | nil
  | cons (hd : Json) (tl : JsonList)
deriving DecidableEq
/-- the fields of a JSON object, in order: a list of key/value pairs -/
inductive JsonObj where
  | nil
  | cons (key : String) (val : Json) (tl : JsonObj)
deriving DecidableEq
end

/-- the value at key `k` (first occurrence), as Python `dict` lookup -/
def JsonObj.lookupKey (k : String) : JsonObj → Option Json
  | .nil => none
  | .cons key v tl => if key = k then some v else JsonObj.lookupKey k tl

/-- whether the object has a field named `k` -/
def JsonObj.hasKey (k : String) : JsonObj → Bool
  | .nil => false
  | .cons key _ tl => key == k || JsonObj.hasKey k tl

/-- the object with every `k` field removed (what the `{"_id": 0}`
    projection does to one document when `k` is `"_id"`) -/
def JsonObj.eraseKey (k : String) : JsonObj → JsonObj
  | .nil => .nil
  | .cons key v tl =>
      if key = k then JsonObj.eraseKey k tl
      else .cons key v (JsonObj.eraseKey k tl)

/-- number of fields of a JSON object -/
def JsonObj.size : JsonObj → Nat
  | .nil => 0
  | .cons _ _ tl => 1 + JsonObj.size tl

/-- a Lean list of JSON values, as a JSON array payload -/
def JsonList.ofList : List Json → JsonList
  | [] => .nil
  | j :: js => .cons j (JsonList.ofList js)

/-- length of a JSON array payload -/
def JsonList.length : JsonList → Nat
  | .nil => 0
  | .cons _ tl => 1 + JsonList.length tl

/-- membership of a JSON value in a JSON array payload -/
def JsonList.mem (j : Json) : JsonList → Prop
  | .nil => False
  | .cons hd tl => j = hd ∨ JsonList.mem j tl

/-- membership in a JSON array payload is decidable -/
def JsonList.decMem (j : Json) : (l : JsonList) → Decidable (JsonList.mem j l)
  | .nil => isFalse (fun h => h)
  | .cons _hd tl =>
      have : Decidable (JsonList.mem j tl) := JsonList.decMem j tl
      inferInstanceAs (Decidable (_ ∨ _))

instance (j : Json) (l : JsonList) : Decidable (JsonList.mem j l) :=
  JsonList.decMem j l

/-- whether a JSON value is an object, the only shape `insert_one`
    accepts (pymongo requires the document to be a mapping) -/
def Json.isObj : Json → Bool
  | .obj _ => true
  | _ => false

/-- the `_id` key of a MongoDB document: either an ObjectId generated by
    the driver (modelled by the generation counter) or the JSON value the
    client supplied in the payload's `"_id"` field.  A JSON payload can
    never equal a driver-generated ObjectId, so the two are disjoint. -/
inductive BsonId where
  | oid (counter : Nat)
  | user (v : Json)
deriving DecidableEq

/-- one document at rest in the collection: its `_id` key and the payload
    fields exactly as posted (including a client-supplied `"_id"` field) -/
structure StoredDoc where
  id : BsonId
  fields : JsonObj
deriving DecidableEq

/-- the MongoDB collection `db.data`: the stored documents in insertion
    order and the ObjectId generation counter -/
structure Store where
  docs : List StoredDoc
  nextOid : Nat
deriving DecidableEq

/-- a collection with no documents -/
def emptyStore : Store := ⟨[], 0⟩

/-- `collection.insert_one(data)` on a mapping: if the payload carries an
    `"_id"` field its value becomes the document key and a duplicate key
    is rejected (MongoDB's unique index on `_id`); otherwise the driver
    generates a fresh ObjectId.  `none` models the DuplicateKeyError. -/
def insert_one (st : Store) (fields : JsonObj) : Option Store :=
  match fields.lookupKey "_id" with
  | some v =>
      if st.docs.any (fun d => d.id == BsonId.user v) then none
      else some ⟨st.docs ++ [⟨BsonId.user v, fields⟩], st.nextOid⟩
  | none => some ⟨st.docs ++ [⟨BsonId.oid st.nextOid, fields⟩], st.nextOid + 1⟩

/-- `list(collection.find({}, {"_id": 0}))`: every stored document, in
    order, with the `"_id"` field omitted by the projection -/
def find_no_id (st : Store) : JsonList :=
  JsonList.ofList (st.docs.map (fun d => Json.obj (d.fields.eraseKey "_id")))

/-- the HTTP methods the app dispatches on -/
inductive Method where
  | GET
  | POST
deriving DecidableEq

/-- the two routes of the app -/
inductive Route where
  | root
  | dataRoute
deriving DecidableEq

/-- the exceptions a request to this app can die with, none of which the
    app catches (there is no try/except in `app.py`) -/
inductive HandlerError where
  | badRequest          -- request.get_json() on an absent or non-JSON body
  | typeError           -- insert_one on a payload that is not a mapping
  | duplicateKeyError   -- insert_one rejected a duplicate client `_id`
  | storeUnavailable    -- the MongoDB server cannot be reached
  | methodNotAllowed    -- method not in the route's methods list
deriving DecidableEq

/-- Flask's default mapping from an uncaught exception to a response
    status: get_json failures are client errors, everything else that is
    not an HTTPException becomes a 500 Internal Server Error -/
def defaultStatus : HandlerError → Nat
  | .badRequest => 400
  | .typeError => 500
  | .duplicateKeyError => 500
  | .storeUnavailable => 500
  | .methodNotAllowed => 405

/-- a status in the 4xx client-error class -/
def isClientError (s : Nat) : Prop := 400 ≤ s ∧ s < 500

/-- a status in the 5xx server-error class -/
def isServerError (s : Nat) : Prop := 500 ≤ s ∧ s < 600

instance (s : Nat) : Decidable (isClientError s) :=
  inferInstanceAs (Decidable (_ ∧ _))

instance (s : Nat) : Decidable (isServerError s) :=
  inferInstanceAs (Decidable (_ ∧ _))

/-- an HTTP response: a plain-text or JSON body plus a status code -/
inductive Resp where
  | text (body : String) (status : Nat)
  | json (body : Json) (status : Nat)
deriving DecidableEq

/-- one call made to the document store -/
inductive StoreOp where
  | insertOp (fields : JsonObj)
  | findOp
deriving DecidableEq

/-- helper for the little-endian decimal digits of a number: structural
    recursion on a fuel argument so that the definition reduces -/
def decDigitsAux : Nat → Nat → List Nat
  | 0, _ => []
  | fuel + 1, n => if n = 0 then [] else n % 10 :: decDigitsAux fuel (n / 10)

/-- little-endian decimal digits of `n` (with `0` rendered as a single
    digit, as Python does) -/
def decDigits (n : Nat) : List Nat :=
  if n = 0 then [0] else decDigitsAux n n

/-- the number a little-endian decimal digit list denotes -/
def fromDecDigits : List Nat → Nat
  | [] => 0
  | d :: ds => d + 10 * fromDecDigits ds

/-- the character for one decimal digit -/
def digitChar (d : Nat) : Char := Char.ofNat (48 + d)

/-- the decimal rendering of a timestamp, modelling how the current
    `datetime.now()` value is interpolated into the f-string: distinct
    time values render to distinct substrings -/
def timeString (t : Nat) : String :=
  String.mk ((decDigits t).reverse.map digitChar)

/-- the constant part of the body returned by the index route -/
def welcomeText : String := "Welcome to the Flask app! The current time is: "

/-- the handler of `GET /` in `app.py` (lines 12-15): a plain-text body
    interpolating the current time, with Flask's implicit 200 status;
    it takes no store argument because the route body never touches the
    collection -/
def index (now : Nat) : Resp :=
  .text (welcomeText ++ timeString now) 200

/-- the handler of `/data` in `app.py` (lines 17-26), parameterised by
    the parsed request body (`none` when `request.get_json()` raises),
    by whether the MongoDB server is reachable, and by the collection
    state.  It returns the response or the uncaught exception, the store
    state after the request, and the list of store calls attempted. -/
def data (method : Method) (body : Option Json) (storeUp : Bool) (st : Store) :
    Except HandlerError (Resp × Store) × List StoreOp :=
  match method with
  | .POST =>
      match body with
      | none => (.error .badRequest, [])
      | some j =>
          match j with
          | .obj fields =>
              if storeUp then
                match insert_one st fields with
                | some st' =>
                    (.ok (.json (.obj (.cons "status" (.str "Data inserted") .nil)) 201, st'),
                     [.insertOp fields])
                | none => (.error .duplicateKeyError, [.insertOp fields])
              else (.error .storeUnavailable, [.insertOp fields])
          | _ => (.error .typeError, [])
  | .GET =>
      if storeUp then (.ok (.json (.arr (find_no_id st)) 200, st), [.findOp])
      else (.error .storeUnavailable, [.findOp])

/-- an HTTP request to the app -/
structure Request where
  route : Route
  method : Method
  body : Option Json

/-- dispatch of one request across the two routes, as Flask routes it:
    the index route accepts only GET (Flask's default methods list), the
    data route both GET and POST.  On an uncaught exception the store is
    left as it was. -/
def handle (req : Request) (now : Nat) (storeUp : Bool) (st : Store) :
    Except HandlerError Resp × Store × List StoreOp :=
  match req.route with
  | .root =>
      match req.method with
      | .GET => (.ok (index now), st, [])
      | .POST => (.error .methodNotAllowed, st, [])
  | .dataRoute =>
      match data req.method req.body storeUp st with
      | (.ok (r, st'), ops) => (.ok r, st', ops)
      | (.error e, ops) => (.error e, st, ops)

/-- the names bound at the top level of `app.py` before the first route
    decorator runs: the six imported names (lines 1-4) and the five
    module-level assignments (lines 6-10) -/
def moduleBoundNames : List String :=
  ["Flask", "request", "jsonify", "MongoClient", "datetime", "os",
   "app", "mongodb_uri", "client", "db", "collection"]

/-- the names the decorator expressions reference, in the order Python
    evaluates them while executing the module body: `app.route` then
    `cross_origin()` for `index` (lines 12-13), then the same pair for
    `data` (lines 17-18) -/
def decoratorRefs : List String :=
  ["app", "cross_origin", "app", "cross_origin"]

/-- the outcome of executing the module's top level -/
inductive ImportOutcome where
  | ok
  | nameError (missing : String)
deriving DecidableEq

/-- Python name resolution over the module environment: the first name
    that is not bound raises NameError and aborts the module body -/
def resolveAll (env : List String) : List String → ImportOutcome
  | [] => .ok
  | n :: ns => if n ∈ env then resolveAll env ns else .nameError n

/-- importing `app.py`: evaluating the decorator references against the
    module's bound names -/
def moduleImport : ImportOutcome := resolveAll moduleBoundNames decoratorRefs

/-- serving a request end to end: the module must import before any
    route handler can run -/
def serve (req : Request) (now : Nat) (storeUp : Bool) (st : Store) :
    Except String (Except HandlerError Resp × Store × List StoreOp) :=
  match moduleImport with
  | .nameError n => .error n
  | .ok => .ok (handle req now storeUp st)

/-- a concrete payload carrying an `_id` field, used to exercise the
    client-supplied-key path of `insert_one` -/
def docWithId7 : JsonObj := .cons "_id" (.num 7) (.cons "x" (.str "y") .nil)

/-- a concrete one-document store whose document was posted with the
    payload `docWithId7` (its key is the client value 7) -/
def storeWithId7 : Store := ⟨[⟨.user (.num 7), docWithId7⟩], 0⟩

/-- the store states reached by posting a list of object payloads in
    order, requiring every single POST to return 201 -/
def postAll (payloads : List JsonObj) (st : Store) : Except HandlerError Store :=
  match payloads with
  | [] => .ok st
  | fs :: rest =>
      match data .POST (some (.obj fs)) true st with
      | (.ok (_, st'), _) => postAll rest st'
      | (.error e, _) => .error e

/-! Helper lemmas about the JSON object and array operations. -/

/-- removing the `k` fields leaves no `k` field behind -/
theorem JsonObj.hasKey_eraseKey (k : String) :
    ∀ fs : JsonObj, ((fs.eraseKey k).hasKey k) = false
  | .nil => rfl
  | .cons key v tl => by
      by_cases h : key = k
      · simpa [JsonObj.eraseKey, h] using JsonObj.hasKey_eraseKey k tl
      · simp [JsonObj.eraseKey, h, JsonObj.hasKey, JsonObj.hasKey_eraseKey k tl]

/-- an object with no `k` field is untouched by erasing `k` -/
theorem JsonObj.eraseKey_of_lookup_none (k : String) :
    ∀ fs : JsonObj, fs.lookupKey k = none → fs.eraseKey k = fs
  | .nil => fun _ => rfl
  | .cons key v tl => by
      intro h
      by_cases hk : key = k
      · simp [JsonObj.lookupKey, hk] at h
      · simp [JsonObj.lookupKey, hk] at h
        simp [JsonObj.eraseKey, hk, JsonObj.eraseKey_of_lookup_none k tl h]

/-- an object with no `k` field has no `k` key -/
theorem JsonObj.hasKey_eq_false_of_lookup_none (k : String) :
    ∀ fs : JsonObj, fs.lookupKey k = none → fs.hasKey k = false
  | .nil => fun _ => rfl
  | .cons key v tl => by
      intro h
      by_cases hk : key = k
      · simp [JsonObj.lookupKey, hk] at h
      · simp [JsonObj.lookupKey, hk] at h
        simp [JsonObj.hasKey, hk, JsonObj.hasKey_eq_false_of_lookup_none k tl h]

/-- membership in an array payload built from a Lean list -/
theorem JsonList.mem_ofList (j : Json) :
    ∀ l : List Json, JsonList.mem j (JsonList.ofList l) ↔ j ∈ l := by
  intro l
  induction l with
  | nil => simp [JsonList.ofList, JsonList.mem]
  | cons hd tl ih => simp [JsonList.ofList, JsonList.mem, ih]

/-- length of an array payload built from a Lean list -/
theorem JsonList.length_ofList :
    ∀ l : List Json, (JsonList.ofList l).length = l.length := by
  intro l
  induction l with
  | nil => rfl
  | cons hd tl ih => simp [JsonList.ofList, JsonList.length, ih, Nat.add_comm]

/-- C7: a GET of the data route on a store holding no documents returns
the empty JSON array with status 200 after a single find call. -/
theorem get_data_empty_store (body : Option Json) (st : Store) (h : st.docs = []) :
    data .GET body true st = (.ok (.json (.arr .nil) 200, st), [.findOp]) := by
  simp [data, find_no_id, h, JsonList.ofList]

/-- witness for get_data_empty_store at the empty store -/
theorem get_data_empty_store_witness :
    data .GET none true emptyStore = (.ok (.json (.arr .nil) 200, emptyStore), [.findOp]) :=
  get_data_empty_store none emptyStore rfl

/-- C5: a GET of the data route returns, with status 200, the JSON array
holding every stored document in order with its internal `_id` field
omitted; every document in the response is an object with no `_id` key,
and the array has exactly one entry per stored document. -/
theorem get_data_returns_all (body : Option Json) (st : Store) :
    data .GET body true st =
      (.ok (.json (.arr (JsonList.ofList
          (st.docs.map (fun d => Json.obj (d.fields.eraseKey "_id"))))) 200, st),
       [.findOp]) ∧
    (find_no_id st).length = st.docs.length ∧
    (∀ j, JsonList.mem j (find_no_id st) →
      ∃ fs : JsonObj, j = .obj fs ∧ fs.hasKey "_id" = false) := by
  refine ⟨by simp [data, find_no_id], ?_, ?_⟩
  · simp [find_no_id, JsonList.length_ofList]
  · intro j hj
    rw [find_no_id, JsonList.mem_ofList] at hj
    obtain ⟨d, _, rfl⟩ := List.mem_map.mp hj
    exact ⟨d.fields.eraseKey "_id", rfl, JsonObj.hasKey_eraseKey "_id" d.fields⟩

/-- witness for get_data_returns_all at a store holding one document
whose payload itself carries an `_id` field -/
theorem get_data_returns_all_witness :
    data .GET none true storeWithId7 =
      (.ok (.json (.arr (JsonList.ofList
          (storeWithId7.docs.map (fun d => Json.obj (d.fields.eraseKey "_id"))))) 200,
        storeWithId7),
       [.findOp]) ∧
    (find_no_id storeWithId7).length = storeWithId7.docs.length ∧
    (∀ j, JsonList.mem j (find_no_id storeWithId7) →
      ∃ fs : JsonObj, j = .obj fs ∧ fs.hasKey "_id" = false) :=
  get_data_returns_all none storeWithId7

/-- C3: a POST to the data route whose body is absent or not valid JSON
dies in `request.get_json()` with a BadRequest; no store call is made,
the store is untouched, and the framework surfaces a 400, a client error
distinct from 201. -/
theorem post_malformed_body (now : Nat) (storeUp : Bool) (st : Store) :
    handle ⟨.dataRoute, .POST, none⟩ now storeUp st = (.error .badRequest, st, []) ∧
    isClientError (defaultStatus .badRequest) ∧
    defaultStatus .badRequest ≠ 201 := by
  refine ⟨?_, by decide, by decide⟩
  simp [handle, data]

/-- witness for post_malformed_body on the empty store -/
theorem post_malformed_body_witness :
    handle ⟨.dataRoute, .POST, none⟩ 0 true emptyStore = (.error .badRequest, emptyStore, []) ∧
    isClientError (defaultStatus .badRequest) ∧
    defaultStatus .badRequest ≠ 201 :=
  post_malformed_body 0 true emptyStore

/-- C10: a POST whose body is valid JSON but not an object dies in
`collection.insert_one` with a TypeError before any store call; the
framework surfaces a 500, a server error, not 201 and not a client
error.  Conversely a 201 response is only ever produced for an object
body, since every non-object body yields this error. -/
theorem post_nonobject_server_error (j : Json) (h : j.isObj = false)
    (now : Nat) (storeUp : Bool) (st : Store) :
    handle ⟨.dataRoute, .POST, some j⟩ now storeUp st = (.error .typeError, st, []) ∧
    isServerError (defaultStatus .typeError) ∧
    ¬ isClientError (defaultStatus .typeError) ∧
    defaultStatus .typeError ≠ 201 := by
  refine ⟨?_, by decide, by decide, by decide⟩
  cases j <;> simp_all [handle, data, Json.isObj]

/-- witness for post_nonobject_server_error at the JSON array body `[]` -/
theorem post_nonobject_server_error_witness :
    handle ⟨.dataRoute, .POST, some (.arr .nil)⟩ 0 true emptyStore =
      (.error .typeError, emptyStore, []) ∧
    isServerError (defaultStatus .typeError) ∧
    ¬ isClientError (defaultStatus .typeError) ∧
    defaultStatus .typeError ≠ 201 :=
  post_nonobject_server_error (.arr .nil) (by decide) 0 true emptyStore

/-- C4 counterexample: the claim quantifies over every valid JSON body,
but the number body `5` is valid JSON and the request dies with a
TypeError surfaced as 500, not 201; and even the object body
repeating the client-supplied `_id` of a stored document dies with a
DuplicateKeyError surfaced as 500 instead of being inserted. -/
theorem post_any_json_201_counterexample :
    data .POST (some (.num 5)) true emptyStore = (.error .typeError, []) ∧
    defaultStatus .typeError = 500 ∧
    data .POST (some (.obj docWithId7)) true storeWithId7 =
      (.error .duplicateKeyError, [.insertOp docWithId7]) ∧
    defaultStatus .duplicateKeyError = 500 := by
  decide

/-- C4 amended: a POST whose body parses to a JSON object carrying no
`_id` field appends exactly one new document to the store, keyed by a
freshly generated ObjectId, and returns 201 with the confirmation body;
the payload fields are stored untouched and no shape validation
happens. -/
theorem post_object_inserted (fields : JsonObj) (st : Store)
    (h : fields.lookupKey "_id" = none) :
    data .POST (some (.obj fields)) true st =
      (.ok (.json (.obj (.cons "status" (.str "Data inserted") .nil)) 201,
            ⟨st.docs ++ [⟨.oid st.nextOid, fields⟩], st.nextOid + 1⟩),
       [.insertOp fields]) := by
  simp [data, insert_one, h]

/-- witness for post_object_inserted at the payload of the spec's
concrete scenario -/
theorem post_object_inserted_witness :
    data .POST (some (.obj (.cons "name" (.str "a") (.cons "value" (.num 1) .nil)))) true
        emptyStore =
      (.ok (.json (.obj (.cons "status" (.str "Data inserted") .nil)) 201,
            ⟨emptyStore.docs ++
               [⟨.oid emptyStore.nextOid, .cons "name" (.str "a") (.cons "value" (.num 1) .nil)⟩],
             emptyStore.nextOid + 1⟩),
       [.insertOp (.cons "name" (.str "a") (.cons "value" (.num 1) .nil))]) :=
  post_object_inserted (.cons "name" (.str "a") (.cons "value" (.num 1) .nil)) emptyStore rfl

/-- C1 counterexample: the payload `{"_id": 0}` is a valid JSON object
and its POST returns 201, but the `{"_id": 0}` projection on GET strips
the client-supplied `_id` field, so the result set holds `{}` and does
not contain the posted document field-for-field. -/
theorem post_get_roundtrip_counterexample :
    data .POST (some (.obj (.cons "_id" (.num 0) .nil))) true emptyStore =
      (.ok (.json (.obj (.cons "status" (.str "Data inserted") .nil)) 201,
            ⟨[⟨.user (.num 0), .cons "_id" (.num 0) .nil⟩], 0⟩),
       [.insertOp (.cons "_id" (.num 0) .nil)]) ∧
    find_no_id ⟨[⟨.user (.num 0), .cons "_id" (.num 0) .nil⟩], 0⟩ =
      .cons (.obj .nil) .nil ∧
    ¬ JsonList.mem (.obj (.cons "_id" (.num 0) .nil)) (.cons (.obj .nil) .nil) := by
  decide

/-- C1 amended: for every JSON object payload with no `_id` field,
posting it to the empty store returns 201 and a following GET returns
with status 200 the one-element result set holding exactly the posted
payload, field-for-field equal, with no internal `_id` field present. -/
theorem post_then_get_roundtrip (fields : JsonObj)
    (h : fields.lookupKey "_id" = none) :
    ∃ st1 : Store,
      data .POST (some (.obj fields)) true emptyStore =
        (.ok (.json (.obj (.cons "status" (.str "Data inserted") .nil)) 201, st1),
         [.insertOp fields]) ∧
      data .GET none true st1 =
        (.ok (.json (.arr (.cons (.obj fields) .nil)) 200, st1), [.findOp]) ∧
      fields.hasKey "_id" = false := by
  refine ⟨⟨[⟨.oid 0, fields⟩], 1⟩, ?_, ?_, JsonObj.hasKey_eq_false_of_lookup_none _ _ h⟩
  · simp [data, insert_one, h, emptyStore]
  · simp [data, find_no_id, JsonList.ofList, JsonObj.eraseKey_of_lookup_none _ _ h]

/-- witness for post_then_get_roundtrip at the spec's concrete scenario
payload -/
theorem post_then_get_roundtrip_witness :
    ∃ st1 : Store,
      data .POST (some (.obj (.cons "name" (.str "a") (.cons "value" (.num 1) .nil)))) true
          emptyStore =
        (.ok (.json (.obj (.cons "status" (.str "Data inserted") .nil)) 201, st1),
         [.insertOp (.cons "name" (.str "a") (.cons "value" (.num 1) .nil))]) ∧
      data .GET none true st1 =
        (.ok (.json (.arr (.cons (.obj (.cons "name" (.str "a") (.cons "value" (.num 1) .nil)))
          .nil)) 200, st1), [.findOp]) ∧
      JsonObj.hasKey "_id" (.cons "name" (.str "a") (.cons "value" (.num 1) .nil)) = false :=
  post_then_get_roundtrip (.cons "name" (.str "a") (.cons "value" (.num 1) .nil)) rfl

/-- C2: the module body references the decorator name cross_origin on
both route handlers without importing or defining it, so executing the
module's top level raises a NameError for cross_origin, and serving any
request whatsoever fails before either handler can run. -/
theorem cross_origin_name_error (req : Request) (now : Nat) (storeUp : Bool) (st : Store) :
    ("cross_origin" ∈ decoratorRefs ∧ "cross_origin" ∉ moduleBoundNames) ∧
    moduleImport = .nameError "cross_origin" ∧
    serve req now storeUp st = .error "cross_origin" := by
  refine ⟨by decide, by decide, ?_⟩
  simp [serve, moduleImport, resolveAll, moduleBoundNames, decoratorRefs]

/-- witness for cross_origin_name_error at a concrete request -/
theorem cross_origin_name_error_witness :
    ("cross_origin" ∈ decoratorRefs ∧ "cross_origin" ∉ moduleBoundNames) ∧
    moduleImport = .nameError "cross_origin" ∧
    serve ⟨.root, .GET, none⟩ 0 true emptyStore = .error "cross_origin" :=
  cross_origin_name_error ⟨.root, .GET, none⟩ 0 true emptyStore

/-- C8: when the MongoDB server is unreachable, a GET or a POST with an
object body dies at its single store call with the connection failure;
the error propagates uncaught (there is no retry and no recovery code in
the handler), the store is untouched, exactly one store call was
attempted, and the framework surfaces a 500 server error. -/
theorem store_unreachable_server_error (b : Option Json) (fields : JsonObj)
    (now : Nat) (st : Store) :
    handle ⟨.dataRoute, .GET, b⟩ now false st =
      (.error .storeUnavailable, st, [.findOp]) ∧
    handle ⟨.dataRoute, .POST, some (.obj fields)⟩ now false st =
      (.error .storeUnavailable, st, [.insertOp fields]) ∧
    ([StoreOp.findOp].length = 1 ∧ [StoreOp.insertOp fields].length = 1) ∧
    isServerError (defaultStatus .storeUnavailable) := by
  refine ⟨?_, ?_, by simp, by decide⟩
  · simp [handle, data]
  · simp [handle, data]

/-- witness for store_unreachable_server_error on the empty store -/
theorem store_unreachable_server_error_witness :
    handle ⟨.dataRoute, .GET, none⟩ 0 false emptyStore =
      (.error .storeUnavailable, emptyStore, [.findOp]) ∧
    handle ⟨.dataRoute, .POST, some (.obj .nil)⟩ 0 false emptyStore =
      (.error .storeUnavailable, emptyStore, [.insertOp .nil]) ∧
    ([StoreOp.findOp].length = 1 ∧ [StoreOp.insertOp JsonObj.nil].length = 1) ∧
    isServerError (defaultStatus .storeUnavailable) :=
  store_unreachable_server_error none .nil 0 emptyStore

/-- C6 counterexample: the two documents `{"_id": 1, "a": 1}` and
`{"_id": 1, "b": 2}` are distinct, the first POST returns 201, but the
second dies with a DuplicateKeyError (shared `_id`), so a following GET
returns one document, not two. -/
theorem insert_n_distinct_counterexample :
    Json.obj (.cons "_id" (.num 1) (.cons "a" (.num 1) .nil)) ≠
      Json.obj (.cons "_id" (.num 1) (.cons "b" (.num 2) .nil)) ∧
    handle ⟨.dataRoute, .POST, some (.obj (.cons "_id" (.num 1) (.cons "a" (.num 1) .nil)))⟩
        0 true emptyStore =
      (.ok (.json (.obj (.cons "status" (.str "Data inserted") .nil)) 201),
       ⟨[⟨.user (.num 1), .cons "_id" (.num 1) (.cons "a" (.num 1) .nil)⟩], 0⟩,
       [.insertOp (.cons "_id" (.num 1) (.cons "a" (.num 1) .nil))]) ∧
    handle ⟨.dataRoute, .POST, some (.obj (.cons "_id" (.num 1) (.cons "b" (.num 2) .nil)))⟩
        0 true ⟨[⟨.user (.num 1), .cons "_id" (.num 1) (.cons "a" (.num 1) .nil)⟩], 0⟩ =
      (.error .duplicateKeyError,
       ⟨[⟨.user (.num 1), .cons "_id" (.num 1) (.cons "a" (.num 1) .nil)⟩], 0⟩,
       [.insertOp (.cons "_id" (.num 1) (.cons "b" (.num 2) .nil))]) ∧
    (find_no_id ⟨[⟨.user (.num 1), .cons "_id" (.num 1) (.cons "a" (.num 1) .nil)⟩], 0⟩).length
      = 1 ∧ (1 : Nat) ≠ 2 := by
  decide

/-- every POST in a run whose payloads supply pairwise-distinct `_id`
values (or none) returns 201, and each appends exactly one document -/
theorem postAll_ok (payloads : List JsonObj) :
    ∀ st : Store,
      (∀ v ∈ payloads.filterMap (fun fs => fs.lookupKey "_id"),
        ∀ d ∈ st.docs, d.id ≠ BsonId.user v) →
      (payloads.filterMap (fun fs => fs.lookupKey "_id")).Nodup →
      ∃ st' : Store, postAll payloads st = .ok st' ∧
        st'.docs.length = st.docs.length + payloads.length := by
  induction payloads with
  | nil => exact fun st _ _ => ⟨st, rfl, by simp [postAll]⟩
  | cons fs rest ih =>
      intro st hfresh hnodup
      cases hfs : fs.lookupKey "_id" with
      | none =>
          rw [List.filterMap_cons_none hfs] at hfresh hnodup
          have hstep : postAll (fs :: rest) st =
              postAll rest ⟨st.docs ++ [⟨.oid st.nextOid, fs⟩], st.nextOid + 1⟩ := by
            simp [postAll, data, insert_one, hfs]
          obtain ⟨st', hok, hlen⟩ :=
            ih ⟨st.docs ++ [⟨.oid st.nextOid, fs⟩], st.nextOid + 1⟩
              (by
                intro v hv d hd
                simp at hd
                rcases hd with hd | hd
                · exact hfresh v hv d hd
                · subst hd; simp)
              hnodup
          refine ⟨st', by rw [hstep, hok], ?_⟩
          simp at hlen
          simp [hlen]
          omega
      | some v =>
          rw [List.filterMap_cons_some hfs] at hfresh hnodup
          have hany : st.docs.any (fun d => d.id == BsonId.user v) = false := by
            simp only [List.any_eq_false]
            intro d hd
            simp only [beq_iff_eq]
            exact hfresh v (by simp) d hd
          have hstep : postAll (fs :: rest) st =
              postAll rest ⟨st.docs ++ [⟨.user v, fs⟩], st.nextOid⟩ := by
            simp [postAll, data, insert_one, hfs, hany]
          obtain ⟨st', hok, hlen⟩ :=
            ih ⟨st.docs ++ [⟨.user v, fs⟩], st.nextOid⟩
              (by
                intro w hw d hd
                simp at hd
                rcases hd with hd | hd
                · exact hfresh w (by simp [hw]) d hd
                · subst hd
                  simp only [ne_eq, BsonId.user.injEq]
                  intro he
                  exact (List.nodup_cons.mp hnodup).1 (he ▸ hw))
              (List.nodup_cons.mp hnodup).2
          refine ⟨st', by rw [hstep, hok], ?_⟩
          simp at hlen
          simp [hlen]
          omega

/-- C6 amended: posting N distinct documents no two of which supply the
same `_id` value makes every POST return 201, and a following GET
returns exactly N documents, no duplication and no loss. -/
theorem insert_n_distinct_then_get_n (payloads : List JsonObj)
    (_hdistinct : payloads.Nodup)
    (hids : (payloads.filterMap (fun fs => fs.lookupKey "_id")).Nodup) :
    ∃ st : Store, postAll payloads emptyStore = .ok st ∧
      (find_no_id st).length = payloads.length ∧
      (∀ body, data .GET body true st =
        (.ok (.json (.arr (find_no_id st)) 200, st), [.findOp])) := by
  obtain ⟨st, hok, hlen⟩ := postAll_ok payloads emptyStore (by simp [emptyStore]) hids
  refine ⟨st, hok, ?_, fun body => by simp [data]⟩
  simp [find_no_id, JsonList.length_ofList, hlen, emptyStore]

/-- witness for insert_n_distinct_then_get_n at two concrete documents,
one with a client `_id` and one without -/
theorem insert_n_distinct_then_get_n_witness :
    ∃ st : Store,
      postAll [.cons "a" (.num 1) .nil, .cons "_id" (.num 3) .nil] emptyStore = .ok st ∧
      (find_no_id st).length =
        [JsonObj.cons "a" (.num 1) .nil, JsonObj.cons "_id" (.num 3) .nil].length ∧
      (∀ body, data .GET body true st =
        (.ok (.json (.arr (find_no_id st)) 200, st), [.findOp])) :=
  insert_n_distinct_then_get_n [.cons "a" (.num 1) .nil, .cons "_id" (.num 3) .nil]
    (by decide) (by decide)

/-! Lemmas about the decimal rendering of the timestamp. -/

/-- the digit list of `decDigitsAux` denotes its input, given enough fuel -/
theorem fromDecDigits_decDigitsAux :
    ∀ fuel n, n ≤ fuel → fromDecDigits (decDigitsAux fuel n) = n := by
  intro fuel
  induction fuel with
  | zero =>
      intro n h
      have : n = 0 := Nat.le_zero.mp h
      subst this
      rfl
  | succ f ih =>
      intro n h
      by_cases h0 : n = 0
      · subst h0; simp [decDigitsAux, fromDecDigits]
      · have hdiv : n / 10 ≤ f := by
          have : n / 10 < n := Nat.div_lt_self (Nat.pos_of_ne_zero h0) (by omega)
          omega
        simp only [decDigitsAux, h0, if_false, fromDecDigits, ih _ hdiv]
        omega

/-- the digit list of a number denotes that number -/
theorem fromDecDigits_decDigits (n : Nat) : fromDecDigits (decDigits n) = n := by
  by_cases h : n = 0
  · subst h; rfl
  · simp [decDigits, h, fromDecDigits_decDigitsAux n n le_rfl]

/-- distinct numbers have distinct decimal digit lists -/
theorem decDigits_injective (a b : Nat) (h : decDigits a = decDigits b) : a = b := by
  have ha := fromDecDigits_decDigits a
  rw [h, fromDecDigits_decDigits] at ha
  omega

/-- every digit produced by `decDigitsAux` is below ten -/
theorem decDigitsAux_lt_ten :
    ∀ fuel n, ∀ d ∈ decDigitsAux fuel n, d < 10 := by
  intro fuel
  induction fuel with
  | zero => intro n d hd; simp [decDigitsAux] at hd
  | succ f ih =>
      intro n d hd
      by_cases h0 : n = 0
      · simp [decDigitsAux, h0] at hd
      · simp only [decDigitsAux, h0, if_false, List.mem_cons] at hd
        rcases hd with hd | hd
        · omega
        · exact ih _ d hd

/-- every digit of a number is below ten -/
theorem decDigits_lt_ten (n : Nat) : ∀ d ∈ decDigits n, d < 10 := by
  by_cases h : n = 0 <;> simp [decDigits, h]
  · intro d hd
    exact decDigitsAux_lt_ten n n d hd

/-- the digit character map is injective on digits -/
theorem digitChar_inj :
    ∀ a, a < 10 → ∀ b, b < 10 → digitChar a = digitChar b → a = b := by
  decide

/-- mapping digits to characters is injective on digit lists -/
theorem map_digitChar_inj :
    ∀ as bs : List Nat, (∀ a ∈ as, a < 10) → (∀ b ∈ bs, b < 10) →
      as.map digitChar = bs.map digitChar → as = bs
  | [], [] => by simp
  | [], _ :: _ => by simp
  | _ :: _, [] => by simp
  | a :: as, b :: bs => by
      intro ha hb h
      simp only [List.map_cons, List.cons.injEq] at h
      have h1 := digitChar_inj a (ha a (by simp)) b (hb b (by simp)) h.1
      have h2 := map_digitChar_inj as bs (fun x hx => ha x (by simp [hx]))
        (fun x hx => hb x (by simp [hx])) h.2
      simp [h1, h2]

/-- distinct time values render to distinct strings -/
theorem timeString_injective (a b : Nat) (h : timeString a = timeString b) : a = b := by
  unfold timeString at h
  have hdata : (decDigits a).reverse.map digitChar = (decDigits b).reverse.map digitChar := by
    simpa using congrArg String.data h
  have hrev : (decDigits a).reverse = (decDigits b).reverse :=
    map_digitChar_inj _ _
      (fun d hd => decDigits_lt_ten a d (List.mem_reverse.mp hd))
      (fun d hd => decDigits_lt_ten b d (List.mem_reverse.mp hd))
      hdata
  exact decDigits_injective a b (List.reverse_inj.mp hrev)

/-- the welcome bodies of two calls at distinct times are distinct -/
theorem welcome_body_injective (a b : Nat)
    (h : welcomeText ++ timeString a = welcomeText ++ timeString b) : a = b := by
  have hdata : welcomeText.data ++ (timeString a).data =
      welcomeText.data ++ (timeString b).data := by
    simpa using congrArg String.data h
  have := List.append_cancel_left hdata
  exact timeString_injective a b (by
    cases hsa : timeString a
    cases hsb : timeString b
    simp [hsa, hsb] at this ⊢
    rw [this])

/-- C9: a GET of the index route returns status 200 with the plain-text
welcome body interpolating the timestamp taken at request time, leaves
the store untouched and makes no store call; and two calls at distinct
times return distinct bodies because the rendered timestamps differ. -/
theorem get_index_fresh_timestamp (now t1 t2 : Nat) (b : Option Json)
    (storeUp : Bool) (st : Store) (hne : t1 ≠ t2) :
    handle ⟨.root, .GET, b⟩ now storeUp st =
      (.ok (.text (welcomeText ++ timeString now) 200), st, []) ∧
    welcomeText ++ timeString t1 ≠ welcomeText ++ timeString t2 := by
  refine ⟨by simp [handle, index], fun h => hne (welcome_body_injective t1 t2 h)⟩

/-- witness for get_index_fresh_timestamp at times 0 and 1 -/
theorem get_index_fresh_timestamp_witness :
    handle ⟨.root, .GET, none⟩ 5 true emptyStore =
      (.ok (.text (welcomeText ++ timeString 5) 200), emptyStore, []) ∧
    welcomeText ++ timeString 0 ≠ welcomeText ++ timeString 1 :=
  get_index_fresh_timestamp 5 0 1 none true emptyStore (by decide)

end FlaskApp
